import Mathlib

/-!
Shallow embedding of the session and token lifecycle manager of the
repository (Express + PostgreSQL): the `users` table is a list of rows,
each SQL query becomes an explicit function over that list, and each
route handler becomes a pure function from the request data and the
current store to an HTTP-level result and the new store.

Modelling conventions:
- Timestamps are milliseconds as `Nat` (`Date.now()` / SQL `NOW()`).
- Tokens are opaque `Nat` values drawn from a fresh-supply counter: each
  issuance consumes two fresh values (the signed JWT access token and the
  `uuidv4()` refresh token).  Freshness of the supply models the
  unguessability/collision-freedom of `jwt.sign` payloads and `uuidv4`.
- `bcrypt.compare` is an opaque parameter `verify : String → String → Bool`.
- SQL `NULL` is `Option.none`; a SQL comparison `col = $x` with a NULL
  column is not satisfied, which `none == some x = false` reflects.
- SQL `UPDATE ... WHERE` is `List.map` guarded by the WHERE predicate;
  `SELECT ... WHERE ... ` returning `rows[0]` is `List.find?`.
-/

/-- One row of the `users` table (the session-relevant columns). -/
structure UserRow where
  id : Nat
  username : String
  email : String
  password : String
  role : String
  is_logged_in : Bool
  access_token : Option Nat
  access_token_expires_at : Option Nat
  refresh_token : Option Nat
  refresh_token_expires_at : Option Nat
  last_login : Option Nat
  deriving Repr, DecidableEq

/-- The `users` table. -/
abbrev Store := List UserRow

/-- Public user fields returned by login-family responses. -/
structure PubUser where
  id : Nat
  username : String
  email : String
  role : String
  deriving Repr, DecidableEq

/-- SQL `col > NOW()` on a nullable timestamp column: NULL rows are not selected. -/
def expAfter (e : Option Nat) (now : Nat) : Bool :=
  match e with
  | none => false
  | some v => decide (now < v)

/-- WHERE clause of the `authenticateToken` cross-check:
`id = $1 AND access_token = $2 AND access_token_expires_at > NOW()`. -/
def matchesAuth (uid : Nat) (tok : Nat) (now : Nat) (r : UserRow) : Bool :=
  r.id == uid && r.access_token == some tok && expAfter r.access_token_expires_at now

/-- WHERE clause `email = $1`. -/
def matchesEmail (email : String) (r : UserRow) : Bool :=
  r.email == email

/-- WHERE clause of the refresh lookup:
`refresh_token = $1 AND refresh_token_expires_at > NOW()`. -/
def matchesRefresh (tok : Nat) (now : Nat) (r : UserRow) : Bool :=
  r.refresh_token == some tok && expAfter r.refresh_token_expires_at now

/-- Result of the `authenticateToken` middleware: an HTTP error response,
or the resolved user attached to the request. -/
inductive AuthRes where
  | err (status : Nat) (message : String)
  | ok (id : Nat) (username email role : String) (is_logged_in : Bool)
  deriving Repr, DecidableEq

/-- The `authenticateToken` middleware: missing bearer token gives 401;
failed signature/expiry verification gives 403; a JWT-valid token is
cross-checked against the stored `access_token` for the decoded id and
rejected with 403 when no row matches.  `sigValid` models
`jwt.verify` succeeding and `decodeId` models `decoded.id`. -/
def authenticateToken (store : Store) (tokenOpt : Option Nat)
    (sigValid : Nat → Bool) (decodeId : Nat → Nat) (now : Nat) : AuthRes :=
  match tokenOpt with
  | none => .err 401 "Authentication token required"
  | some tok =>
    if sigValid tok then
      match store.find? (matchesAuth (decodeId tok) tok now) with
      | none => .err 403 "Invalid or expired token"
      | some r => .ok r.id r.username r.email r.role r.is_logged_in
    else .err 403 "Invalid or expired token"

/-- Result of the login-family routes. -/
inductive LoginRes where
  | err (status : Nat) (message : String)
  | conflict (status : Nat) (message action : String) (user : PubUser)
  | ok (accessToken refreshToken : Nat) (user : PubUser)
  deriving Repr, DecidableEq

/-- The issuance UPDATE shared by login and confirm-logout-login:
`SET access_token, access_token_expires_at, refresh_token,
refresh_token_expires_at, is_logged_in = TRUE, last_login = NOW()
WHERE id = $5`. -/
def issueUpdate (store : Store) (uid : Nat) (a rt : Nat) (aexp rexp now : Nat) : Store :=
  store.map fun r =>
    if r.id == uid then
      { r with access_token := some a, access_token_expires_at := some aexp,
               refresh_token := some rt, refresh_token_expires_at := some rexp,
               is_logged_in := true, last_login := some now }
    else r

/-- `POST /login`: find by email; generic 400 on unknown email or failed
hash verification; 409 conflict prompt when `is_logged_in`; otherwise
generate a fresh pair (access `ctr`, refresh `ctr+1`), with 5-minute and
15-minute expiries, and run the unconditional issuance UPDATE keyed by id. -/
def login (verify : String → String → Bool) (store : Store) (email password : String)
    (now ctr : Nat) : LoginRes × Store × Nat :=
  match store.find? (matchesEmail email) with
  | none => (.err 400 "Invalid credentials", store, ctr)
  | some user =>
    if verify password user.password then
      if user.is_logged_in then
        (.conflict 409
          "User already logged in on another device. Do you want to continue and logout the other session?"
          "confirm_logout" ⟨user.id, user.username, user.email, user.role⟩, store, ctr)
      else
        (.ok ctr (ctr + 1) ⟨user.id, user.username, user.email, user.role⟩,
         issueUpdate store user.id ctr (ctr + 1) (now + 5 * 60 * 1000) (now + 15 * 60 * 1000) now,
         ctr + 2)
    else (.err 400 "Invalid credentials", store, ctr)

/-- `POST /confirm-logout-login`: re-verifies credentials and issues a new
pair unconditionally (no `is_logged_in` branch), overwriting the stored
session via the same issuance UPDATE. -/
def confirmLogoutLogin (verify : String → String → Bool) (store : Store)
    (email password : String) (now ctr : Nat) : LoginRes × Store × Nat :=
  match store.find? (matchesEmail email) with
  | none => (.err 400 "Invalid credentials", store, ctr)
  | some user =>
    if verify password user.password then
      (.ok ctr (ctr + 1) ⟨user.id, user.username, user.email, user.role⟩,
       issueUpdate store user.id ctr (ctr + 1) (now + 5 * 60 * 1000) (now + 15 * 60 * 1000) now,
       ctr + 2)
    else (.err 400 "Invalid credentials", store, ctr)

/-- Result of `POST /refresh-token`. -/
inductive RefreshRes where
  | err (status : Nat) (message : String)
  | ok (accessToken refreshToken : Nat)
  deriving Repr, DecidableEq

/-- The rotation UPDATE of `POST /refresh-token`: sets only the four token
columns, `WHERE id = $5`. -/
def rotateUpdate (store : Store) (uid : Nat) (a rt : Nat) (aexp rexp : Nat) : Store :=
  store.map fun r =>
    if r.id == uid then
      { r with access_token := some a, access_token_expires_at := some aexp,
               refresh_token := some rt, refresh_token_expires_at := some rexp }
    else r

/-- `POST /refresh-token`: 400 when the token field is absent; look up a
row by stored refresh token with unexpired refresh expiry, 403 when none;
otherwise issue a brand-new pair and overwrite the four token columns. -/
def refreshTokenRoute (store : Store) (tokenOpt : Option Nat)
    (now ctr : Nat) : RefreshRes × Store × Nat :=
  match tokenOpt with
  | none => (.err 400 "Refresh token is required", store, ctr)
  | some tok =>
    match store.find? (matchesRefresh tok now) with
    | none => (.err 403 "Invalid or expired refresh token", store, ctr)
    | some user =>
      (.ok ctr (ctr + 1),
       rotateUpdate store user.id ctr (ctr + 1) (now + 5 * 60 * 1000) (now + 15 * 60 * 1000),
       ctr + 2)

/-- The logout UPDATE: nulls the four token columns and clears
`is_logged_in`, `WHERE id = $1`. -/
def logoutUpdate (store : Store) (uid : Nat) : Store :=
  store.map fun r =>
    if r.id == uid then
      { r with access_token := none, access_token_expires_at := none,
               refresh_token := none, refresh_token_expires_at := none,
               is_logged_in := false }
    else r

/-- `POST /logout`: runs behind `authenticateToken`; on authenticated
requests runs the logout UPDATE for `req.user.id` and returns 200.  The
JavaScript falsiness check `!req.user.id` is the `uid == 0` test. -/
def logoutRoute (store : Store) (tokenOpt : Option Nat)
    (sigValid : Nat → Bool) (decodeId : Nat → Nat) (now : Nat) :
    (Nat × String) × Store :=
  match authenticateToken store tokenOpt sigValid decodeId now with
  | .err s m => ((s, m), store)
  | .ok uid _ _ _ _ =>
    if uid == 0 then ((401, "User not authenticated"), store)
    else ((200, "Logged out successfully"), logoutUpdate store uid)

/-- Legacy `POST /force-logout` (routes/auth.ts): takes only an email in
the body (absent or empty is the falsy 400 branch), nulls the four token
columns and clears `is_logged_in` for every row with that email, and
returns 200 — with no password, bearer-token or other credential check. -/
def forceLogout (store : Store) (email : Option String) : (Nat × String) × Store :=
  match email with
  | none => ((400, "Email is required"), store)
  | some e =>
    if e == "" then ((400, "Email is required"), store)
    else
      ((200, "Previous session logged out successfully"),
       store.map fun r =>
         if r.email == e then
           { r with access_token := none, access_token_expires_at := none,
                    refresh_token := none, refresh_token_expires_at := none,
                    is_logged_in := false }
         else r)

/-! ## Well-formedness of the store and concrete fixtures -/

/-- Ids are a primary key: two rows with the same id are the same row. -/
def idUnique (store : Store) : Prop :=
  ∀ r₁ ∈ store, ∀ r₂ ∈ store, r₁.id = r₂.id → r₁ = r₂

/-- Stored (non-null) refresh tokens never coincide across rows: each came
from a distinct fresh `uuidv4` generation. -/
abbrev refreshDistinct (store : Store) : Prop :=
  ∀ r₁ ∈ store, ∀ r₂ ∈ store,
    r₁.refresh_token ≠ none → r₁.refresh_token = r₂.refresh_token → r₁ = r₂

/-- A nullable token column only holds values below the fresh counter. -/
def optBelow (t : Option Nat) (ctr : Nat) : Bool :=
  match t with
  | none => true
  | some v => decide (v < ctr)

/-- Every token stored so far was generated before the counter `ctr`:
the next generated tokens `ctr`, `ctr+1` are fresh. -/
abbrev tokensBelow (store : Store) (ctr : Nat) : Prop :=
  ∀ r ∈ store, optBelow r.access_token ctr = true ∧ optBelow r.refresh_token ctr = true

/-- Concrete stand-in for `bcrypt`: verification succeeds exactly when the
stored digest is the tagged plaintext. -/
def demoVerify (plain hash : String) : Bool := hash == "h:" ++ plain

/-- A registered user with no active session. -/
def rowAlice : UserRow :=
  { id := 1, username := "alice", email := "a@x.io", password := "h:pw1", role := "user",
    is_logged_in := false, access_token := none, access_token_expires_at := none,
    refresh_token := none, refresh_token_expires_at := none, last_login := none }

/-- The same user with an active session (token pair 10/11). -/
def rowAliceActive : UserRow :=
  { rowAlice with
    is_logged_in := true, access_token := some 10,
    access_token_expires_at := some 300000, refresh_token := some 11,
    refresh_token_expires_at := some 900000 }

/-! ## Helper lemmas -/

lemma find?_eq_none_of_all (l : Store) (p : UserRow → Bool)
    (h : ∀ r ∈ l, p r = false) : l.find? p = none := by
  rw [List.find?_eq_none]
  intro x hx
  simp [h x hx]

/-! ## Claim theorems -/

/-- Claim C2: after the logout UPDATE runs for a user id, the
authorization middleware rejects every token that decodes to that id with
403 `Invalid or expired token`, regardless of signature validity and of
the current time (so in particular before the natural 5-minute expiry):
the store cross-check finds no row whose stored access token matches. -/
theorem logout_revokes_access_token (store : Store) (uid : Nat) (tok : Nat)
    (sigValid : Nat → Bool) (decodeId : Nat → Nat) (now : Nat)
    (hdec : decodeId tok = uid) :
    authenticateToken (logoutUpdate store uid) (some tok) sigValid decodeId now
      = AuthRes.err 403 "Invalid or expired token" := by
  unfold authenticateToken
  by_cases hs : sigValid tok
  · have hnone : (logoutUpdate store uid).find? (matchesAuth (decodeId tok) tok now) = none := by
      apply find?_eq_none_of_all
      intro r' hr'
      rcases List.mem_map.mp hr' with ⟨r, _, rfl⟩
      by_cases hid : (r.id == uid) = true
      · simp [matchesAuth, hid, hdec]
      · simp [matchesAuth, hid, hdec]
    simp [hs, hnone]
  · simp [hs]

/-- Witness for C2 at a concrete store, token and clock. -/
theorem logout_revokes_access_token_witness :
    authenticateToken (logoutUpdate [rowAliceActive] 1) (some 10)
        (fun _ => true) (fun _ => 1) 0
      = AuthRes.err 403 "Invalid or expired token" :=
  logout_revokes_access_token [rowAliceActive] 1 10 (fun _ => true) (fun _ => 1) 0 rfl

/-- Claim C7: when the credentials verify but the stored `is_logged_in` is
true, login returns the 409 conflict response carrying the
`confirm_logout` action and the public identity hint, and leaves the store
and the token supply unchanged (no tokens issued, no row mutated). -/
theorem login_conflict_when_logged_in (verify : String → String → Bool)
    (store : Store) (email password : String) (now ctr : Nat) (u : UserRow)
    (hfind : store.find? (matchesEmail email) = some u)
    (hv : verify password u.password = true)
    (hl : u.is_logged_in = true) :
    login verify store email password now ctr
      = (LoginRes.conflict 409
          "User already logged in on another device. Do you want to continue and logout the other session?"
          "confirm_logout" ⟨u.id, u.username, u.email, u.role⟩, store, ctr) := by
  unfold login
  rw [hfind]
  simp [hv, hl]

/-- Witness for C7 at a concrete store with an active session. -/
theorem login_conflict_when_logged_in_witness :
    login demoVerify [rowAliceActive] "a@x.io" "pw1" 0 100
      = (LoginRes.conflict 409
          "User already logged in on another device. Do you want to continue and logout the other session?"
          "confirm_logout" ⟨1, "alice", "a@x.io", "user"⟩, [rowAliceActive], 100) :=
  login_conflict_when_logged_in demoVerify [rowAliceActive] "a@x.io" "pw1" 0 100
    rowAliceActive (by decide) (by decide) (by decide)

/-- Claim C9: a login whose email matches no row and a login whose email
matches a row but whose password fails hash verification produce the very
same response: status 400 with the generic message `Invalid credentials`,
so the two failure causes are indistinguishable to the caller. -/
theorem invalid_credentials_indistinguishable
    (verify : String → String → Bool) (s₁ s₂ : Store)
    (e₁ p₁ e₂ p₂ : String) (now₁ ctr₁ now₂ ctr₂ : Nat) (u : UserRow)
    (h₁ : s₁.find? (matchesEmail e₁) = none)
    (h₂ : s₂.find? (matchesEmail e₂) = some u)
    (hv : verify p₂ u.password = false) :
    (login verify s₁ e₁ p₁ now₁ ctr₁).1 = LoginRes.err 400 "Invalid credentials" ∧
    (login verify s₂ e₂ p₂ now₂ ctr₂).1 = LoginRes.err 400 "Invalid credentials" := by
  constructor
  · unfold login
    rw [h₁]
  · unfold login
    rw [h₂]
    simp [hv]

/-- Witness for C9: unknown email and wrong password at concrete inputs. -/
theorem invalid_credentials_indistinguishable_witness :
    (login demoVerify [] "x@x.io" "pw" 0 0).1 = LoginRes.err 400 "Invalid credentials" ∧
    (login demoVerify [rowAlice] "a@x.io" "bad" 1 2).1 = LoginRes.err 400 "Invalid credentials" :=
  invalid_credentials_indistinguishable demoVerify [] [rowAlice]
    "x@x.io" "pw" "a@x.io" "bad" 0 0 1 2 rowAlice rfl (by decide) (by decide)

lemma matchesRefresh_spec {tok : Nat} {now : Nat} {r : UserRow}
    (h : matchesRefresh tok now r = true) :
    r.refresh_token = some tok ∧ expAfter r.refresh_token_expires_at now = true := by
  unfold matchesRefresh at h
  rcases Bool.and_eq_true_iff.mp h with ⟨h1, h2⟩
  exact ⟨by simpa using h1, h2⟩

lemma matchesAuth_spec {uid : Nat} {tok : Nat} {now : Nat} {r : UserRow}
    (h : matchesAuth uid tok now r = true) :
    r.id = uid ∧ r.access_token = some tok := by
  unfold matchesAuth at h
  rcases Bool.and_eq_true_iff.mp h with ⟨h12, _⟩
  rcases Bool.and_eq_true_iff.mp h12 with ⟨h1, h2⟩
  exact ⟨by simpa using h1, by simpa using h2⟩

lemma refresh_below {store : Store} {ctr : Nat} (hfresh : tokensBelow store ctr)
    {r : UserRow} (hr : r ∈ store) {t : Nat} (h : r.refresh_token = some t) : t < ctr := by
  have hb := (hfresh r hr).2
  rw [h] at hb
  simpa [optBelow] using hb

lemma access_below {store : Store} {ctr : Nat} (hfresh : tokensBelow store ctr)
    {r : UserRow} (hr : r ∈ store) {t : Nat} (h : r.access_token = some t) : t < ctr := by
  have hb := (hfresh r hr).1
  rw [h] at hb
  simpa [optBelow] using hb

/-- After an UPDATE that replaces the stored refresh token of the rows
with the owning user id and leaves the other rows alone, a lookup by the
old refresh token finds nothing, provided stored refresh tokens were
pairwise distinct. -/
lemma refresh_lookup_none_after_overwrite (store : Store) (u : UserRow) (tok : Nat)
    (f : UserRow → UserRow)
    (hrd : refreshDistinct store) (hu : u ∈ store) (hutok : u.refresh_token = some tok)
    (hfm : ∀ row : UserRow, row.id = u.id → (f row).refresh_token ≠ some tok)
    (hfo : ∀ row : UserRow, row.id ≠ u.id → f row = row)
    (now₂ : Nat) :
    (store.map f).find? (matchesRefresh tok now₂) = none := by
  apply find?_eq_none_of_all
  intro r' hr'
  rcases List.mem_map.mp hr' with ⟨row, hrow, rfl⟩
  by_cases hidr : row.id = u.id
  · rcases Bool.eq_false_or_eq_true (matchesRefresh tok now₂ (f row)) with h | h
    · exact absurd (matchesRefresh_spec h).1 (hfm row hidr)
    · exact h
  · rw [hfo row hidr]
    rcases Bool.eq_false_or_eq_true (matchesRefresh tok now₂ row) with h | h
    swap
    · exact h
    · have h1 := (matchesRefresh_spec h).1
      have heq : row = u := hrd row hrow u hu (by rw [h1]; simp) (by rw [h1, hutok])
      exact absurd (by rw [heq]) hidr

/-- After an UPDATE that replaces the stored access token of the rows with
the owning user id and leaves the other rows alone, the middleware lookup
by the old access token for that id finds nothing. -/
lemma auth_lookup_none_after_overwrite (store : Store) (uid : Nat) (tok : Nat)
    (f : UserRow → UserRow)
    (hfm : ∀ row : UserRow, row.id = uid → (f row).access_token ≠ some tok)
    (hfo : ∀ row : UserRow, row.id ≠ uid → f row = row)
    (now₂ : Nat) :
    (store.map f).find? (matchesAuth uid tok now₂) = none := by
  apply find?_eq_none_of_all
  intro r' hr'
  rcases List.mem_map.mp hr' with ⟨row, hrow, rfl⟩
  by_cases hidr : row.id = uid
  · rcases Bool.eq_false_or_eq_true (matchesAuth uid tok now₂ (f row)) with h | h
    · exact absurd (matchesAuth_spec h).2 (hfm row hidr)
    · exact h
  · rw [hfo row hidr]
    rcases Bool.eq_false_or_eq_true (matchesAuth uid tok now₂ row) with h | h
    · exact absurd (matchesAuth_spec h).1 hidr
    · exact h

/-- Claim C3: when the supplied refresh token matches a stored row with an
unexpired refresh expiry, the route returns a fresh pair whose refresh
token differs from the submitted one, overwrites all four stored token
columns of that user in the single rotation UPDATE, and afterwards a
refresh call presenting the originally submitted token fails with 403
`Invalid or expired refresh token`, at every later clock and counter. -/
theorem refresh_rotates_and_invalidates (store : Store) (tok : Nat) (now ctr : Nat)
    (r : UserRow)
    (hrd : refreshDistinct store) (hfresh : tokensBelow store ctr)
    (hfind : store.find? (matchesRefresh tok now) = some r) :
    (refreshTokenRoute store (some tok) now ctr).1 = RefreshRes.ok ctr (ctr + 1) ∧
    ctr + 1 ≠ tok ∧
    (∀ r' ∈ (refreshTokenRoute store (some tok) now ctr).2.1, r'.id = r.id →
      r'.access_token = some ctr ∧
      r'.access_token_expires_at = some (now + 5 * 60 * 1000) ∧
      r'.refresh_token = some (ctr + 1) ∧
      r'.refresh_token_expires_at = some (now + 15 * 60 * 1000)) ∧
    (∀ now₂ ctr₂ : Nat,
      (refreshTokenRoute (refreshTokenRoute store (some tok) now ctr).2.1
        (some tok) now₂ ctr₂).1
        = RefreshRes.err 403 "Invalid or expired refresh token") := by
  have hmem : r ∈ store := List.mem_of_find?_eq_some hfind
  have hmr : matchesRefresh tok now r = true := List.find?_some hfind
  have hrt : r.refresh_token = some tok := (matchesRefresh_spec hmr).1
  have htlt : tok < ctr := refresh_below hfresh hmem hrt
  have hstore : (refreshTokenRoute store (some tok) now ctr).2.1
      = rotateUpdate store r.id ctr (ctr + 1) (now + 5 * 60 * 1000) (now + 15 * 60 * 1000) := by
    simp [refreshTokenRoute, hfind]
  have hne : ctr + 1 ≠ tok := by omega
  refine ⟨by simp [refreshTokenRoute, hfind], hne, ?_, ?_⟩
  · intro r' hr' hid
    rw [hstore] at hr'
    rcases List.mem_map.mp hr' with ⟨row, _, rfl⟩
    by_cases hb : row.id = r.id
    · simp [hb]
    · simp [hb] at hid
  · intro now₂ ctr₂
    rw [hstore]
    have hnone : (rotateUpdate store r.id ctr (ctr + 1) (now + 5 * 60 * 1000)
        (now + 15 * 60 * 1000)).find? (matchesRefresh tok now₂) = none := by
      unfold rotateUpdate
      apply refresh_lookup_none_after_overwrite store r tok _ hrd hmem hrt
      · intro row hidrow
        simp [hidrow]
        omega
      · intro row hidrow
        simp [hidrow]
    simp [refreshTokenRoute, hnone]

/-- Witness for C3: rotation and reuse-rejection at a concrete store. -/
theorem refresh_rotates_and_invalidates_witness :
    (refreshTokenRoute [rowAliceActive] (some 11) 0 100).1 = RefreshRes.ok 100 101 ∧
    100 + 1 ≠ 11 ∧
    (∀ r' ∈ (refreshTokenRoute [rowAliceActive] (some 11) 0 100).2.1,
      r'.id = rowAliceActive.id →
      r'.access_token = some 100 ∧
      r'.access_token_expires_at = some (0 + 5 * 60 * 1000) ∧
      r'.refresh_token = some (100 + 1) ∧
      r'.refresh_token_expires_at = some (0 + 15 * 60 * 1000)) ∧
    (∀ now₂ ctr₂ : Nat,
      (refreshTokenRoute (refreshTokenRoute [rowAliceActive] (some 11) 0 100).2.1
        (some 11) now₂ ctr₂).1
        = RefreshRes.err 403 "Invalid or expired refresh token") :=
  refresh_rotates_and_invalidates [rowAliceActive] 11 0 100 rowAliceActive
    (by decide) (by decide) (by decide)

/-- Claim C8: a successful rotation rewrites the store as a per-row map
that changes only the four token columns; every other column — in
particular `is_logged_in` and `last_login` — keeps its prior value, and
rows of other users are completely unchanged. -/
theorem refresh_rotation_frame (store : Store) (tok : Nat) (now ctr : Nat) (r : UserRow)
    (hfind : store.find? (matchesRefresh tok now) = some r) :
    ∃ g : UserRow → UserRow,
      (refreshTokenRoute store (some tok) now ctr).2.1 = store.map g ∧
      (∀ row : UserRow, (g row).id = row.id ∧ (g row).username = row.username ∧
        (g row).email = row.email ∧ (g row).password = row.password ∧
        (g row).role = row.role ∧ (g row).is_logged_in = row.is_logged_in ∧
        (g row).last_login = row.last_login) ∧
      (∀ row : UserRow, row.id ≠ r.id → g row = row) := by
  refine ⟨fun row =>
    if row.id == r.id then
      { row with
        access_token := some ctr, access_token_expires_at := some (now + 5 * 60 * 1000),
        refresh_token := some (ctr + 1), refresh_token_expires_at := some (now + 15 * 60 * 1000) }
    else row, ?_, ?_, ?_⟩
  · simp [refreshTokenRoute, hfind, rotateUpdate]
  · intro row
    by_cases hb : row.id = r.id <;> simp [hb]
  · intro row hb
    simp [hb]

/-- Witness for C8 at a concrete store. -/
theorem refresh_rotation_frame_witness :
    ∃ g : UserRow → UserRow,
      (refreshTokenRoute [rowAliceActive] (some 11) 0 100).2.1 = [rowAliceActive].map g ∧
      (∀ row : UserRow, (g row).id = row.id ∧ (g row).username = row.username ∧
        (g row).email = row.email ∧ (g row).password = row.password ∧
        (g row).role = row.role ∧ (g row).is_logged_in = row.is_logged_in ∧
        (g row).last_login = row.last_login) ∧
      (∀ row : UserRow, row.id ≠ rowAliceActive.id → g row = row) :=
  refresh_rotation_frame [rowAliceActive] 11 0 100 rowAliceActive (by decide)

/-- Claim C5: with credentials that verify, confirm-logout-login succeeds
and issues a fresh pair with no hypothesis at all on the stored
`is_logged_in` value (the handler never reads it), overwrites all four
stored token columns of that user, and the token pair stored before the
call no longer matches the store: the authorization cross-check rejects
the old access token and the refresh lookup rejects the old refresh
token, at every later clock. -/
theorem confirm_takeover_succeeds_and_invalidates
    (verify : String → String → Bool) (store : Store) (email password : String)
    (now ctr : Nat) (u : UserRow) (ta tr : Nat)
    (hrd : refreshDistinct store) (hfresh : tokensBelow store ctr)
    (hfind : store.find? (matchesEmail email) = some u)
    (hv : verify password u.password = true)
    (ha : u.access_token = some ta) (hr : u.refresh_token = some tr) :
    (confirmLogoutLogin verify store email password now ctr).1
      = LoginRes.ok ctr (ctr + 1) ⟨u.id, u.username, u.email, u.role⟩ ∧
    (∀ r' ∈ (confirmLogoutLogin verify store email password now ctr).2.1, r'.id = u.id →
      r'.access_token = some ctr ∧
      r'.access_token_expires_at = some (now + 5 * 60 * 1000) ∧
      r'.refresh_token = some (ctr + 1) ∧
      r'.refresh_token_expires_at = some (now + 15 * 60 * 1000) ∧
      r'.is_logged_in = true) ∧
    (∀ (sigValid : Nat → Bool) (decodeId : Nat → Nat) (now₂ : Nat), decodeId ta = u.id →
      authenticateToken (confirmLogoutLogin verify store email password now ctr).2.1
        (some ta) sigValid decodeId now₂ = AuthRes.err 403 "Invalid or expired token") ∧
    (∀ now₂ ctr₂ : Nat,
      (refreshTokenRoute (confirmLogoutLogin verify store email password now ctr).2.1
        (some tr) now₂ ctr₂).1 = RefreshRes.err 403 "Invalid or expired refresh token") := by
  have hmem : u ∈ store := List.mem_of_find?_eq_some hfind
  have hta : ta < ctr := access_below hfresh hmem ha
  have htr : tr < ctr := refresh_below hfresh hmem hr
  have hstore : (confirmLogoutLogin verify store email password now ctr).2.1
      = issueUpdate store u.id ctr (ctr + 1) (now + 5 * 60 * 1000)
          (now + 15 * 60 * 1000) now := by
    simp [confirmLogoutLogin, hfind, hv]
  refine ⟨by simp [confirmLogoutLogin, hfind, hv], ?_, ?_, ?_⟩
  · intro r' hr' hid
    rw [hstore] at hr'
    rcases List.mem_map.mp hr' with ⟨row, _, rfl⟩
    by_cases hb : row.id = u.id
    · simp [hb]
    · simp [hb] at hid
  · intro sigValid decodeId now₂ hdec
    rw [hstore]
    have hnone : (issueUpdate store u.id ctr (ctr + 1) (now + 5 * 60 * 1000)
        (now + 15 * 60 * 1000) now).find? (matchesAuth u.id ta now₂) = none := by
      unfold issueUpdate
      apply auth_lookup_none_after_overwrite store u.id ta
      · intro row hidrow
        simp [hidrow]
        omega
      · intro row hidrow
        simp [hidrow]
    unfold authenticateToken
    by_cases hs : sigValid ta
    · simp [hs, hdec, hnone]
    · simp [hs]
  · intro now₂ ctr₂
    rw [hstore]
    have hnone : (issueUpdate store u.id ctr (ctr + 1) (now + 5 * 60 * 1000)
        (now + 15 * 60 * 1000) now).find? (matchesRefresh tr now₂) = none := by
      unfold issueUpdate
      apply refresh_lookup_none_after_overwrite store u tr _ hrd hmem hr
      · intro row hidrow
        simp [hidrow]
        omega
      · intro row hidrow
        simp [hidrow]
    simp [refreshTokenRoute, hnone]

/-- Witness for C5 at a concrete store whose user is currently logged in. -/
theorem confirm_takeover_succeeds_and_invalidates_witness :
    (confirmLogoutLogin demoVerify [rowAliceActive] "a@x.io" "pw1" 0 100).1
      = LoginRes.ok 100 101 ⟨1, "alice", "a@x.io", "user"⟩ ∧
    (∀ r' ∈ (confirmLogoutLogin demoVerify [rowAliceActive] "a@x.io" "pw1" 0 100).2.1,
      r'.id = 1 →
      r'.access_token = some 100 ∧
      r'.access_token_expires_at = some (0 + 5 * 60 * 1000) ∧
      r'.refresh_token = some (100 + 1) ∧
      r'.refresh_token_expires_at = some (0 + 15 * 60 * 1000) ∧
      r'.is_logged_in = true) ∧
    (∀ (sigValid : Nat → Bool) (decodeId : Nat → Nat) (now₂ : Nat), decodeId 10 = 1 →
      authenticateToken (confirmLogoutLogin demoVerify [rowAliceActive] "a@x.io" "pw1" 0 100).2.1
        (some 10) sigValid decodeId now₂ = AuthRes.err 403 "Invalid or expired token") ∧
    (∀ now₂ ctr₂ : Nat,
      (refreshTokenRoute (confirmLogoutLogin demoVerify [rowAliceActive] "a@x.io" "pw1" 0 100).2.1
        (some 11) now₂ ctr₂).1 = RefreshRes.err 403 "Invalid or expired refresh token") :=
  confirm_takeover_succeeds_and_invalidates demoVerify [rowAliceActive] "a@x.io" "pw1"
    0 100 rowAliceActive 10 11 (by decide) (by decide) (by decide) (by decide)
    (by decide) (by decide)

/-- Invariant I3 on one row: either both expiry columns are NULL, or the
access-token expiry is strictly before the refresh-token expiry. -/
def I3row (r : UserRow) : Bool :=
  match r.access_token_expires_at, r.refresh_token_expires_at with
  | none, none => true
  | some a, some b => decide (a < b)
  | _, _ => false

/-- Invariant I3 over the whole store. -/
abbrev I3store (store : Store) : Prop := ∀ r ∈ store, I3row r = true

lemma I3_map (store : Store) (f : UserRow → UserRow)
    (hf : ∀ r : UserRow, I3row r = true → I3row (f r) = true)
    (h : I3store store) : I3store (store.map f) := by
  intro r' hr'
  rcases List.mem_map.mp hr' with ⟨row, hrow, rfl⟩
  exact hf row (h row hrow)

lemma I3_issueUpdate (store : Store) (uid a rt now : Nat) (h : I3store store) :
    I3store (issueUpdate store uid a rt (now + 5 * 60 * 1000) (now + 15 * 60 * 1000) now) := by
  unfold issueUpdate
  apply I3_map _ _ _ h
  intro r hrI
  by_cases hb : r.id = uid
  · simp [hb, I3row]
  · simp [hb, hrI]

lemma I3_rotateUpdate (store : Store) (uid a rt now : Nat) (h : I3store store) :
    I3store (rotateUpdate store uid a rt (now + 5 * 60 * 1000) (now + 15 * 60 * 1000)) := by
  unfold rotateUpdate
  apply I3_map _ _ _ h
  intro r hrI
  by_cases hb : r.id = uid
  · simp [hb, I3row]
  · simp [hb, hrI]

lemma I3_logoutUpdate (store : Store) (uid : Nat) (h : I3store store) :
    I3store (logoutUpdate store uid) := by
  unfold logoutUpdate
  apply I3_map _ _ _ h
  intro r hrI
  by_cases hb : r.id = uid
  · simp [hb, I3row]
  · simp [hb, hrI]

/-- Claim C6: every session-mutating route preserves invariant I3: after
login, confirm-and-takeover, refresh rotation or logout, every row either
has both expiries NULL or its access expiry strictly below its refresh
expiry; issuance always writes `now + 5` minutes against `now + 15`
minutes, so issued rows satisfy the strict inequality. -/
theorem session_ops_preserve_I3
    (verify : String → String → Bool) (store : Store) (email password : String)
    (now ctr : Nat) (tokenOpt : Option Nat)
    (sigValid : Nat → Bool) (decodeId : Nat → Nat)
    (hI : I3store store) :
    I3store (login verify store email password now ctr).2.1 ∧
    I3store (confirmLogoutLogin verify store email password now ctr).2.1 ∧
    I3store (refreshTokenRoute store tokenOpt now ctr).2.1 ∧
    I3store (logoutRoute store tokenOpt sigValid decodeId now).2 := by
  refine ⟨?_, ?_, ?_, ?_⟩
  · cases hfind : store.find? (matchesEmail email) with
    | none =>
      simp only [login, hfind]
      exact hI
    | some u =>
      by_cases hv : verify password u.password = true
      · by_cases hl : u.is_logged_in = true
        · simp only [login, hfind, hv, hl, if_true]
          exact hI
        · simp only [login, hfind, hv, if_true]
          rw [if_neg hl]
          exact I3_issueUpdate store u.id ctr (ctr + 1) now hI
      · simp only [login, hfind]
        rw [if_neg hv]
        exact hI
  · cases hfind : store.find? (matchesEmail email) with
    | none =>
      simp only [confirmLogoutLogin, hfind]
      exact hI
    | some u =>
      by_cases hv : verify password u.password = true
      · simp only [confirmLogoutLogin, hfind, hv, if_true]
        exact I3_issueUpdate store u.id ctr (ctr + 1) now hI
      · simp only [confirmLogoutLogin, hfind]
        rw [if_neg hv]
        exact hI
  · cases tokenOpt with
    | none =>
      simp only [refreshTokenRoute]
      exact hI
    | some tok =>
      cases hfind : store.find? (matchesRefresh tok now) with
      | none =>
        simp only [refreshTokenRoute, hfind]
        exact hI
      | some u =>
        simp only [refreshTokenRoute, hfind]
        exact I3_rotateUpdate store u.id ctr (ctr + 1) now hI
  · cases hauth : authenticateToken store tokenOpt sigValid decodeId now with
    | err s m =>
      simp only [logoutRoute, hauth]
      exact hI
    | ok uid un em rl li =>
      by_cases hz : uid == 0
      · simp only [logoutRoute, hauth]
        rw [if_pos hz]
        exact hI
      · simp only [logoutRoute, hauth]
        rw [if_neg hz]
        exact I3_logoutUpdate store uid hI

/-- Witness for C6 at a concrete store satisfying I3. -/
theorem session_ops_preserve_I3_witness :
    I3store (login demoVerify [rowAliceActive] "a@x.io" "pw1" 0 100).2.1 ∧
    I3store (confirmLogoutLogin demoVerify [rowAliceActive] "a@x.io" "pw1" 0 100).2.1 ∧
    I3store (refreshTokenRoute [rowAliceActive] (some 11) 0 100).2.1 ∧
    I3store (logoutRoute [rowAliceActive] (some 11) (fun _ => true) (fun _ => 1) 0).2 :=
  session_ops_preserve_I3 demoVerify [rowAliceActive] "a@x.io" "pw1" 0 100 (some 11)
    (fun _ => true) (fun _ => 1) (by decide)

/-- A row with no session: all four token columns NULL and
`is_logged_in = false`. -/
def loggedOutRow (r : UserRow) : Bool :=
  r.access_token == none && r.access_token_expires_at == none &&
  r.refresh_token == none && r.refresh_token_expires_at == none && !r.is_logged_in

/-- Claim C4 counterexample: with the single user already logged out (all
four token fields NULL, `is_logged_in = false`), invoking `POST /logout`
with a bearer token — even one whose signature is accepted and which
decodes to that user's id — is rejected with 403 `Invalid or expired
token`: an error response, not a no-op success. -/
theorem logout_when_already_logged_out_errors :
    logoutRoute [rowAlice] (some 10) (fun _ => true) (fun _ => 1) 0
      = ((403, "Invalid or expired token"), [rowAlice]) := by decide

/-- Claim C4 as amended: the logout UPDATE itself is idempotent —
re-running it for the same user id changes nothing further, and when every
row of that user is already logged out it is the identity on the store —
but the route is guarded by `authenticateToken`, so an invocation for an
already-logged-out user (any bearer token decoding to that id) is
rejected with 403 `Invalid or expired token` and leaves the store
unchanged, rather than returning a no-op success. -/
theorem logout_update_idempotent_but_route_guarded (store : Store) (uid : Nat)
    (tok : Nat) (sigValid : Nat → Bool) (decodeId : Nat → Nat) (now : Nat)
    (hdec : decodeId tok = uid)
    (hout : ∀ r ∈ store, r.id = uid → loggedOutRow r = true) :
    (∀ store₂ : Store, logoutUpdate (logoutUpdate store₂ uid) uid = logoutUpdate store₂ uid) ∧
    logoutUpdate store uid = store ∧
    logoutRoute store (some tok) sigValid decodeId now
      = ((403, "Invalid or expired token"), store) := by
  refine ⟨?_, ?_, ?_⟩
  · intro store₂
    unfold logoutUpdate
    rw [List.map_map]
    apply List.map_congr_left
    intro r _
    by_cases hb : r.id = uid
    · simp [Function.comp, hb]
    · simp [Function.comp, hb]
  · unfold logoutUpdate
    have hcongr : ∀ r ∈ store,
        (if r.id == uid then
          { r with access_token := none, access_token_expires_at := none,
                   refresh_token := none, refresh_token_expires_at := none,
                   is_logged_in := false }
         else r) = r := by
      intro r hr
      by_cases hb : r.id = uid
      · have hlo := hout r hr hb
        simp only [loggedOutRow, Bool.and_eq_true_iff] at hlo
        obtain ⟨⟨⟨⟨h1, h2⟩, h3⟩, h4⟩, h5⟩ := hlo
        rw [if_pos (by simpa using hb)]
        cases r
        simp_all
      · rw [if_neg (by simpa using hb)]
    rw [List.map_congr_left hcongr]
    exact List.map_id' store
  · have hnone : store.find? (matchesAuth uid tok now) = none := by
      apply find?_eq_none_of_all
      intro r hr
      by_cases hb : r.id = uid
      · have hlo := hout r hr hb
        simp only [loggedOutRow, Bool.and_eq_true_iff] at hlo
        have hat : r.access_token = none := by simpa using hlo.1.1.1.1
        unfold matchesAuth
        rw [hat]
        simp
      · simp [matchesAuth, hb]
    unfold logoutRoute authenticateToken
    by_cases hs : sigValid tok
    · simp [hs, hdec, hnone]
    · simp [hs]

/-- Witness for the amended C4 at the concrete logged-out store. -/
theorem logout_update_idempotent_but_route_guarded_witness :
    (∀ store₂ : Store, logoutUpdate (logoutUpdate store₂ 1) 1 = logoutUpdate store₂ 1) ∧
    logoutUpdate [rowAlice] 1 = [rowAlice] ∧
    logoutRoute [rowAlice] (some 10) (fun _ => true) (fun _ => 1) 0
      = ((403, "Invalid or expired token"), [rowAlice]) :=
  logout_update_idempotent_but_route_guarded [rowAlice] 1 10 (fun _ => true) (fun _ => 1) 0
    rfl (by decide)

/-- Outcome of the read phase of `POST /login`: either the response is
already decided (error or conflict, no write follows), or the handler
proceeds to issue tokens for the row it read. -/
inductive LoginDecision where
  | fail (res : LoginRes)
  | issue (user : UserRow)
  deriving Repr, DecidableEq

/-- The read phase of `POST /login`: the SELECT by email plus the local
password and `is_logged_in` checks — everything before the UPDATE.  The
`is_logged_in` test is made on the row snapshot obtained by the SELECT,
not re-checked at write time. -/
def loginRead (verify : String → String → Bool) (store : Store)
    (email password : String) : LoginDecision :=
  match store.find? (matchesEmail email) with
  | none => .fail (.err 400 "Invalid credentials")
  | some user =>
    if verify password user.password then
      if user.is_logged_in then
        .fail (.conflict 409
          "User already logged in on another device. Do you want to continue and logout the other session?"
          "confirm_logout" ⟨user.id, user.username, user.email, user.role⟩)
      else .issue user
    else .fail (.err 400 "Invalid credentials")

/-- The write phase of `POST /login`: token generation and the issuance
UPDATE, whose WHERE clause is `id = $5` only — it carries no
`is_logged_in = FALSE` condition and no affected-row-count check. -/
def loginWrite (store : Store) (user : UserRow) (now ctr : Nat) : LoginRes × Store × Nat :=
  (.ok ctr (ctr + 1) ⟨user.id, user.username, user.email, user.role⟩,
   issueUpdate store user.id ctr (ctr + 1) (now + 5 * 60 * 1000) (now + 15 * 60 * 1000) now,
   ctr + 2)

/-- Sequential sanity check: executed without interleaving, the login
handler is exactly its read phase followed by its write phase. -/
lemma login_eq_read_then_write (verify : String → String → Bool) (store : Store)
    (email password : String) (now ctr : Nat) :
    login verify store email password now ctr
      = match loginRead verify store email password with
        | .fail res => (res, store, ctr)
        | .issue u => loginWrite store u now ctr := by
  unfold login loginRead loginWrite
  cases hfind : store.find? (matchesEmail email) with
  | none => rfl
  | some u =>
    by_cases hv : verify password u.password = true
    · by_cases hl : u.is_logged_in = true <;> simp [hv, hl]
    · simp [hv]

/-- Two concurrent login requests with the same credentials, interleaved
as read-A, read-B, write-A, write-B: both SELECTs run against the initial
store before either UPDATE commits; each write that happens consumes the
token supply in turn.  Returns the two responses and the final store. -/
def twoLoginsRRWW (verify : String → String → Bool) (store : Store)
    (email password : String) (now ctr : Nat) : LoginRes × LoginRes × Store :=
  let dA := loginRead verify store email password
  let dB := loginRead verify store email password
  match dA, dB with
  | .fail rA, .fail rB => (rA, rB, store)
  | .fail rA, .issue uB =>
    let wB := loginWrite store uB now ctr
    (rA, wB.1, wB.2.1)
  | .issue uA, .fail rB =>
    let wA := loginWrite store uA now ctr
    (wA.1, rB, wA.2.1)
  | .issue uA, .issue uB =>
    let wA := loginWrite store uA now ctr
    let wB := loginWrite wA.2.1 uB now wA.2.2
    (wA.1, wB.1, wB.2.1)

/-- Claim C1 (failing evidence): the login handler reads `is_logged_in`
with one query and issues tokens with a separate unconditional UPDATE
keyed only by id, so when two concurrent logins for the not-yet-logged-in
user interleave as read-read-write-write, both requests observe
`is_logged_in = false` and BOTH receive a fresh token pair — never a
`SessionConflict` — contradicting the claimed atomic compare-and-set
under which exactly one of them could succeed. -/
theorem concurrent_logins_both_succeed :
    twoLoginsRRWW demoVerify [rowAlice] "a@x.io" "pw1" 0 100
      = (LoginRes.ok 100 101 ⟨1, "alice", "a@x.io", "user"⟩,
         LoginRes.ok 102 103 ⟨1, "alice", "a@x.io", "user"⟩,
         [{ rowAlice with
            access_token := some 102, access_token_expires_at := some 300000,
            refresh_token := some 103, refresh_token_expires_at := some 900000,
            is_logged_in := true, last_login := some 0 }]) := by
  decide

/-- Claim C10: the legacy force-logout route, given any non-empty email,
answers 200 and nulls all four token columns and clears `is_logged_in` on
every row with that email — with no password, bearer-token or any other
credential among its inputs, for arbitrary stores. -/
theorem force_logout_unauthenticated (store : Store) (e : String) (he : e ≠ "") :
    (forceLogout store (some e)).1 = (200, "Previous session logged out successfully") ∧
    ∀ r' ∈ (forceLogout store (some e)).2, r'.email = e →
      r'.access_token = none ∧ r'.access_token_expires_at = none ∧
      r'.refresh_token = none ∧ r'.refresh_token_expires_at = none ∧
      r'.is_logged_in = false := by
  have hbe : (e == "") = false := by simpa using he
  constructor
  · simp [forceLogout, hbe]
  · intro r' hr' hmail
    simp only [forceLogout, hbe, Bool.false_eq_true, if_false] at hr'
    rcases List.mem_map.mp hr' with ⟨row, _, rfl⟩
    by_cases hb : row.email = e
    · simp [hb]
    · simp [hb] at hmail

/-- Witness for C10 at a concrete store with an active session. -/
theorem force_logout_unauthenticated_witness :
    (forceLogout [rowAliceActive] (some "a@x.io")).1
      = (200, "Previous session logged out successfully") ∧
    ∀ r' ∈ (forceLogout [rowAliceActive] (some "a@x.io")).2, r'.email = "a@x.io" →
      r'.access_token = none ∧ r'.access_token_expires_at = none ∧
      r'.refresh_token = none ∧ r'.refresh_token_expires_at = none ∧
      r'.is_logged_in = false :=
  force_logout_unauthenticated [rowAliceActive] "a@x.io" (by decide)
